import Mathlib

/-!
Verification of the configuration/bootstrap layer of `better-auth-rs`.

Shallow embedding of the repository's `src/config` module:
* `Level`, `Format`, `Logger` — `src/config/telemetry.rs`
* `ServerConfig` — `src/config/server.rs`
* `Environment`, the config-source merge — `src/config/mod.rs`
* `DatabaseConfig` and its migration decision table — `src/config/db.rs`
* `ConfigError` — `src/config/error.rs`

External collaborators (the tracing-subscriber filter parsers, the env-var
read, the sqlx migrator, the config crate's source merge) are modelled as
explicit parameters or small oracles, so every repository code path is
represented faithfully while library internals stay abstract.
-/

/-- Opaque payloads of the external error types wrapped by `ConfigError`
(`tracing_subscriber::filter::ParseError`). -/
structure ParseErrorData where
  msg : String
deriving DecidableEq

/-- Payload of a `std::env::VarError` other than `NotPresent`
(i.e. `VarError::NotUnicode`). -/
structure VarErrorData where
  msg : String
deriving DecidableEq

/-- Payload of `tracing_subscriber::filter::FromEnvError`. -/
structure FromEnvErrorData where
  msg : String
deriving DecidableEq

/-- Payload of `tracing_subscriber::util::TryInitError` (the
"a global default subscriber has already been set" error). -/
inductive TryInitErrorData where
  | mk
deriving DecidableEq

/-- Payload of `sqlx::migrate::MigrateError` (e.g. the `migrations`
directory cannot be read). -/
structure MigrateErrorData where
  msg : String
deriving DecidableEq

/-- `ConfigError` from `src/config/error.rs`: the unified error enum.
Variants not reachable from the verified functions (`Axum`, `IO`,
generic `Config`) are kept as opaque-payload constructors. -/
inductive ConfigError where
  | axum (msg : String)
  | config (msg : String)
  | envFilter (v : VarErrorData)
  | fromEnv (e : FromEnvErrorData)
  | io (msg : String)
  | parse (e : ParseErrorData)
  | sqlxMigrate (e : MigrateErrorData)
  | tryInit (e : TryInitErrorData)
deriving DecidableEq

/-- `Level` from `src/config/telemetry.rs` (logging severity). -/
inductive Level where
  | Off
  | Trace
  | Debug
  | Info
  | Warn
  | Error
deriving DecidableEq

/-- The `Display` impl for `Level` (`src/config/telemetry.rs`, lines 40–55). -/
def Level.display : Level → String
  | .Off => "off"
  | .Trace => "trace"
  | .Debug => "debug"
  | .Info => "info"
  | .Warn => "warn"
  | .Error => "error"

/-- The serde serialization tag of each `Level` variant, read off the
`#[serde(rename = ...)]` attributes (`src/config/telemetry.rs`, lines 23–38). -/
def Level.serTag : Level → String
  | .Off => "off"
  | .Trace => "trace"
  | .Debug => "debug"
  | .Info => "info"
  | .Warn => "warn"
  | .Error => "error"

/-- The Rust variant identifier of each `Level` constructor. -/
def Level.variantName : Level → String
  | .Off => "Off"
  | .Trace => "Trace"
  | .Debug => "Debug"
  | .Info => "Info"
  | .Warn => "Warn"
  | .Error => "Error"

/-- serde deserialization of a `Level` tag: the derived deserializer accepts
exactly the renamed tags (`src/config/telemetry.rs`, lines 23–38). -/
def Level.deser : String → Option Level
  | "off" => some .Off
  | "trace" => some .Trace
  | "debug" => some .Debug
  | "info" => some .Info
  | "warn" => some .Warn
  | "error" => some .Error
  | _ => none

/-- `Format` from `src/config/telemetry.rs` (log output format). -/
inductive Format where
  | Compact
  | Full
  | Json
  | Pretty
deriving DecidableEq

/-- The serde serialization tag of each `Format` variant, read off the
`#[serde(rename = ...)]` attributes (`src/config/telemetry.rs`, lines 60–71). -/
def Format.serTag : Format → String
  | .Compact => "compact"
  | .Full => "full"
  | .Json => "json"
  | .Pretty => "pretty"

/-- The Rust variant identifier of each `Format` constructor. -/
def Format.variantName : Format → String
  | .Compact => "Compact"
  | .Full => "Full"
  | .Json => "Json"
  | .Pretty => "Pretty"

/-- serde deserialization of a `Format` tag
(`src/config/telemetry.rs`, lines 60–71). -/
def Format.deser : String → Option Format
  | "compact" => some .Compact
  | "full" => some .Full
  | "json" => some .Json
  | "pretty" => some .Pretty
  | _ => none

/-- `ServerConfig` from `src/config/server.rs`. `port` is a `u16` in the
source; it is carried as a `Nat` (the claims bound it by 65535 explicitly). -/
structure ServerConfig where
  protocol : String
  host : String
  port : Nat
deriving DecidableEq

/-- `ServerConfig::url` (`src/config/server.rs`, lines 31–33):
`format!("{}://{}:{}", protocol, host, port)`. -/
def ServerConfig.url (c : ServerConfig) : String :=
  c.protocol ++ "://" ++ c.host ++ ":" ++ toString c.port

/-- `ServerConfig::address` (`src/config/server.rs`, lines 52–54):
`format!("{}:{}", host, port)`. -/
def ServerConfig.address (c : ServerConfig) : String :=
  c.host ++ ":" ++ toString c.port

/-- `Environment` from `src/config/mod.rs`, lines 267–293. -/
inductive Environment where
  | Development
  | Production
  | Testing
  | Other (name : String)
deriving DecidableEq

/-- Rust's `str::to_lowercase`, modelled character-wise with `Char.toLower`
(these agree on ASCII input, which is all the recognized aliases use). -/
def lowercaseStr (s : String) : String := ⟨s.data.map Char.toLower⟩

/-- Rust's `str::trim`: strip whitespace from both ends. -/
def trimStr (s : String) : String :=
  ⟨((s.data.dropWhile Char.isWhitespace).reverse.dropWhile Char.isWhitespace).reverse⟩

/-- `impl From<&str> for Environment` (`src/config/mod.rs`, lines 352–361):
`match s.to_lowercase().trim() { ... }` — lowercase first, then trim. -/
def Environment.ofStr (s : String) : Environment :=
  let t := trimStr (lowercaseStr s)
  if t = "development" ∨ t = "dev" then .Development
  else if t = "production" ∨ t = "prod" then .Production
  else if t = "testing" ∨ t = "test" then .Testing
  else .Other t

/-- A parsed `tracing_subscriber::filter::Directive`. A successfully parsed
directive is represented by its source text (its meaning in the library is a
function of that text alone). -/
structure Directive where
  text : String
deriving DecidableEq

/-- The tracing-subscriber `EnvFilter`, modelled by the string it was built
from (`base`) and the directives later composed onto it with
`add_directive` (`extra`, in addition order). -/
structure EnvFilter where
  base : String
  extra : List Directive
deriving DecidableEq

/-- `EnvFilter::add_directive`: additively composes one more directive. -/
def EnvFilter.add_directive (f : EnvFilter) (d : Directive) : EnvFilter :=
  ⟨f.base, f.extra ++ [d]⟩

/-- Outcome of `EnvFilter::try_from_default_env()` as case-split by
`Logger::env_filter` (`src/config/telemetry.rs`, lines 140–149):
either the `RUST_LOG` variable was present and parsed (carrying its verbatim
value), or the error's source is `VarError::NotPresent`, another `VarError`
(`NotUnicode`), or a directive `ParseError`. -/
inductive FromEnvResult where
  | ok (value : String)
  | errNotPresent (e : FromEnvErrorData)
  | errNotUnicode (e : FromEnvErrorData) (v : VarErrorData)
  | errParse (e : FromEnvErrorData)
deriving DecidableEq

/-- `env!("CARGO_PKG_NAME")`: the crate name of this repository. -/
def cargoPkgName : String := "betterauth"

/-- `Logger` from `src/config/telemetry.rs`, lines 93–98. -/
structure Logger where
  level : Level
  format : Format
  crates : List String

/-- `Logger::directives` (`src/config/telemetry.rs`, lines 223–231): for each
configured crate, parse `"<crate>=<level>"` with `Directive::from_str`; the
`collect` over `Result` keeps list order and stops at the first parse error.
`de` is the parse oracle: `de s = none` means `Directive::from_str(s)`
succeeds, `de s = some err` means it fails with `err`. -/
def collectDirectives (level : Level) (de : String → Option ParseErrorData) :
    List String → Except ConfigError (List Directive)
  | [] => .ok []
  | c :: rest =>
    let s := c ++ "=" ++ level.display
    match de s with
    | some e => .error (.parse e)
    | none =>
      match collectDirectives level de rest with
      | .error e => .error e
      | .ok ds => .ok (⟨s⟩ :: ds)

/-- `Logger::directives` packaged on the `Logger` receiver. -/
def Logger.directives (lg : Logger) (de : String → Option ParseErrorData) :
    Except ConfigError (List Directive) :=
  collectDirectives lg.level de lg.crates

/-- The base-filter computation of `Logger::env_filter`
(`src/config/telemetry.rs`, lines 140–157). `ev` is the outcome of
`EnvFilter::try_from_default_env()`; `tn` is the parse oracle for
`EnvFilter::try_new` (`none` = success). Mirrors the source:
present-and-parsed `RUST_LOG` is the base verbatim; `NotPresent` falls back
to `"<pkg>=<level>"` when `crates` is empty and to the empty filter
otherwise; any other `try_from_default_env` failure is returned as an
error. -/
def Logger.baseFilter (lg : Logger) (ev : FromEnvResult)
    (tn : String → Option ParseErrorData) : Except ConfigError EnvFilter :=
  match ev with
  | .ok value => .ok ⟨value, []⟩
  | .errNotPresent _ =>
    if lg.crates.isEmpty then
      let s := cargoPkgName ++ "=" ++ lg.level.display
      match tn s with
      | some e => .error (.parse e)
      | none => .ok ⟨s, []⟩
    else
      match tn "" with
      | some e => .error (.parse e)
      | none => .ok ⟨"", []⟩
  | .errNotUnicode _ v => .error (.envFilter v)
  | .errParse e => .error (.fromEnv e)

/-- The whole of `Logger::env_filter`: the base filter above, then the
`for` loop adding the per-crate directives in list order. -/
def Logger.env_filter (lg : Logger) (ev : FromEnvResult)
    (tn : String → Option ParseErrorData) (de : String → Option ParseErrorData) :
    Except ConfigError EnvFilter :=
  match lg.baseFilter ev tn with
  | .error e => .error e
  | .ok f =>
    match lg.directives de with
    | .error e => .error e
    | .ok ds => .ok (ds.foldl EnvFilter.add_directive f)

/-- The subscriber assembled by `Logger::setup`: the filter layer plus the
formatter chosen from `format` (the `ErrorLayer` and writer details carry no
state relevant to the verified claims). -/
structure Subscriber where
  filter : EnvFilter
  format : Format
deriving DecidableEq

/-- The process-wide global-default-subscriber slot that
`tracing_subscriber`'s `try_init` writes into. -/
structure SubscriberState where
  global : Option Subscriber
deriving DecidableEq

/-- The state of a process in which no subscriber has been installed yet. -/
def SubscriberState.fresh : SubscriberState := ⟨none⟩

/-- `try_init`: installs the subscriber as the process-wide default, or
fails with `TryInitError` when one is already installed, leaving the
installed subscriber untouched. -/
def tryInitSub (s : Subscriber) (st : SubscriberState) :
    Except ConfigError Unit × SubscriberState :=
  match st.global with
  | some _ => (.error (.tryInit .mk), st)
  | none => (.ok (), ⟨some s⟩)

/-- `Logger::setup` (`src/config/telemetry.rs`, lines 115–129): build the
env filter (propagating its error), then `try_init` the registry with the
formatter selected by `format`. -/
def Logger.setup (lg : Logger) (ev : FromEnvResult)
    (tn : String → Option ParseErrorData) (de : String → Option ParseErrorData)
    (st : SubscriberState) : Except ConfigError Unit × SubscriberState :=
  match lg.env_filter ev tn de with
  | .error e => (.error e, st)
  | .ok f =>
    match lg.format with
    | .Compact => tryInitSub ⟨f, .Compact⟩ st
    | .Full => tryInitSub ⟨f, .Full⟩ st
    | .Json => tryInitSub ⟨f, .Json⟩ st
    | .Pretty => tryInitSub ⟨f, .Pretty⟩ st

/-- `DatabaseConfig` from `src/config/db.rs`, lines 43–55. `port` is a `u16`
in the source, carried as a `Nat`. -/
structure DatabaseConfig where
  uri : String
  protocol : String
  user : String
  password : String
  host : String
  name : String
  port : Nat
  truncate : Bool
  recreate : Bool
  auto_migrate : Bool

/-- A migrator action performed by `DatabaseConfig::init`:
`migrator.undo(&pool, n)` or `migrator.run(&pool)`. -/
inductive MigAction where
  | undo (n : Int)
  | run
deriving DecidableEq

/-- The sqlx `Migrator` once `Migrator::new` has read the `migrations`
directory: an ordered manifest of versioned migration steps. -/
structure Migrator where
  steps : List String
deriving DecidableEq

/-- `migrator.iter().count() as i64` (`src/config/db.rs`, line 180). -/
def Migrator.count (m : Migrator) : Int := (m.steps.length : Int)

/-- Failure oracles for the external migration tool: `undoErr n` is the
error, if any, of `migrator.undo(&pool, n)`, and `runErr` that of
`migrator.run(&pool)`. -/
structure MigratorOps where
  undoErr : Int → Option MigrateErrorData
  runErr : Option MigrateErrorData

/-- `DatabaseConfig::init` (`src/config/db.rs`, lines 176–199).
`newMigrator` is the outcome of `Migrator::new(Path::new("migrations"))`
(read before any flag is consulted); `ops` gives the outcomes of the
migrator calls. Returns the ordered trace of migrator actions attempted
together with the propagated result. The pool connection
(`connect_using_options`) is lazy and infallible and carries no state
relevant here. -/
def DatabaseConfig.init (cfg : DatabaseConfig)
    (newMigrator : Except MigrateErrorData Migrator) (ops : MigratorOps) :
    List MigAction × Except ConfigError Unit :=
  match newMigrator with
  | .error e => ([], .error (.sqlxMigrate e))
  | .ok migrator =>
    let migrations : Int := migrator.count
    if cfg.recreate && cfg.auto_migrate then
      match ops.undoErr migrations with
      | some e => ([.undo migrations], .error (.sqlxMigrate e))
      | none =>
        match ops.runErr with
        | some e => ([.undo migrations, .run], .error (.sqlxMigrate e))
        | none => ([.undo migrations, .run], .ok ())
    else
      let afterUndo : List MigAction × Except ConfigError Unit :=
        if cfg.recreate then
          match ops.undoErr migrations with
          | some e => ([.undo migrations], .error (.sqlxMigrate e))
          | none => ([.undo migrations], .ok ())
        else ([], .ok ())
      match afterUndo with
      | (t, .error e) => (t, .error e)
      | (t, .ok _) =>
        if cfg.auto_migrate then
          match ops.runErr with
          | some e => (t ++ [.run], .error (.sqlxMigrate e))
          | none => (t ++ [.run], .ok ())
        else (t, .ok ())

/-- The §4.4 decision table of the specification, stated in the spec's own
terms: the migration actions required for each (recreate, auto_migrate)
combination over a manifest of `n` steps. -/
def specMigrationTable (recreate auto_migrate : Bool) (n : Int) : List MigAction :=
  match recreate, auto_migrate with
  | false, false => []
  | false, true => [.run]
  | true, false => [.undo n]
  | true, true => [.undo n, .run]

/-- A configuration source as seen by the config crate: a partial map from
flattened keys (e.g. "server.port") to values. -/
def ConfigSource := String → Option String

/-- The config crate's layered-source resolution for two sources added in
order: a key present in the later source resolves to the later source's
value, otherwise to the earlier source's. -/
def sourceOverride (earlier later : ConfigSource) : ConfigSource :=
  fun k =>
    match later k with
    | some v => some v
    | none => earlier k

/-- The merged source built by `Config::from_env` (`src/config/mod.rs`,
lines 195–202): the YAML file source is added first and the `APP_`-prefixed
environment overlay second, so by the builder's later-source-wins
resolution the overlay takes precedence for every key (the precedence the
source's own doc comment states at `src/config/mod.rs`, lines 25–27). -/
def Config.mergedSource (file overlay : ConfigSource) : ConfigSource :=
  sourceOverride file overlay

/-! ## Helper lemmas -/

theorem collectDirectives_all_ok (level : Level) (de : String → Option ParseErrorData)
    (cs : List String) (h : ∀ c ∈ cs, de (c ++ "=" ++ level.display) = none) :
    collectDirectives level de cs =
      .ok (cs.map fun c => (⟨c ++ "=" ++ level.display⟩ : Directive)) := by
  induction cs with
  | nil => rfl
  | cons c rest ih =>
    have hc : de (c ++ "=" ++ level.display) = none := h c (List.mem_cons_self c rest)
    have hrest := ih fun x hx => h x (List.mem_cons_of_mem c hx)
    simp [collectDirectives, hc, hrest]

theorem collectDirectives_ok_shape (level : Level) (de : String → Option ParseErrorData)
    (cs : List String) (ds : List Directive) (h : collectDirectives level de cs = .ok ds) :
    ds = cs.map fun c => (⟨c ++ "=" ++ level.display⟩ : Directive) := by
  induction cs generalizing ds with
  | nil =>
    simp [collectDirectives] at h
    simp [← h]
  | cons c rest ih =>
    simp only [collectDirectives] at h
    cases hc : de (c ++ "=" ++ level.display) with
    | some e => rw [hc] at h; exact absurd h (by simp)
    | none =>
      rw [hc] at h
      cases hrest : collectDirectives level de rest with
      | error e => rw [hrest] at h; exact absurd h (by simp)
      | ok ds0 =>
        rw [hrest] at h
        simp only [Except.ok.injEq] at h
        subst h
        simp [ih ds0 hrest]

theorem foldl_add_directive_spec (ds : List Directive) (f : EnvFilter) :
    ds.foldl EnvFilter.add_directive f = ⟨f.base, f.extra ++ ds⟩ := by
  induction ds generalizing f with
  | nil => simp
  | cons d rest ih => simp [List.foldl_cons, EnvFilter.add_directive, ih]

theorem baseFilter_extra_nil (lg : Logger) (ev : FromEnvResult)
    (tn : String → Option ParseErrorData) (f : EnvFilter)
    (h : lg.baseFilter ev tn = .ok f) : f.extra = [] := by
  cases ev with
  | ok v =>
    simp [Logger.baseFilter] at h
    simp [← h]
  | errNotPresent e =>
    simp only [Logger.baseFilter] at h
    by_cases hc : lg.crates.isEmpty
    · rw [if_pos hc] at h
      cases htn : tn (cargoPkgName ++ "=" ++ lg.level.display) with
      | some e2 => simp [htn] at h
      | none => simp [htn] at h; simp [← h]
    · rw [if_neg hc] at h
      cases htn : tn "" with
      | some e2 => simp [htn] at h
      | none => simp [htn] at h; simp [← h]
  | errNotUnicode e v => simp [Logger.baseFilter] at h
  | errParse e => simp [Logger.baseFilter] at h

/-! ## Claim theorems -/

/-- Claim C8: every `Level` and `Format` variant serializes to the lowercase
variant name as its tag, and deserializing that tag yields the same variant
back (round-trip identity). -/
theorem level_format_serde_round_trip :
    (∀ l : Level, Level.serTag l = lowercaseStr (Level.variantName l) ∧
      Level.deser (Level.serTag l) = some l) ∧
    (∀ f : Format, Format.serTag f = lowercaseStr (Format.variantName f) ∧
      Format.deser (Format.serTag f) = some f) := by
  constructor
  · intro l; cases l <;> exact ⟨by decide, rfl⟩
  · intro f; cases f <;> exact ⟨by decide, rfl⟩

/-- Claim C9: for every `ServerConfig` with non-empty protocol and host and
port at most 65535, `address()` is exactly `"host:port"` and `url()` is
exactly `"protocol://host:port"`. -/
theorem serverConfig_address_url (c : ServerConfig)
    (hp : c.protocol ≠ "") (hh : c.host ≠ "") (hport : c.port ≤ 65535) :
    c.address = c.host ++ ":" ++ toString c.port ∧
    c.url = c.protocol ++ "://" ++ c.host ++ ":" ++ toString c.port :=
  ⟨rfl, rfl⟩

/-- Witness for C9 at a concrete configuration. -/
theorem serverConfig_address_url_check :
    ServerConfig.address ⟨"http", "127.0.0.1", 3000⟩ = "127.0.0.1:3000" ∧
    ServerConfig.url ⟨"http", "127.0.0.1", 3000⟩ = "http://127.0.0.1:3000" := by
  have h := serverConfig_address_url ⟨"http", "127.0.0.1", 3000⟩
    (by decide) (by decide) (by decide)
  exact ⟨h.1.trans (by decide), h.2.trans (by decide)⟩

/-- Claim C5: for any key present in both the YAML file source and the
`APP_`-prefixed environment overlay source, the merged configuration built
by `Config::from_env` resolves the key to the overlay value, never the file
value. -/
theorem config_overlay_wins (file overlay : ConfigSource) (k v1 v2 : String)
    (h1 : file k = some v1) (h2 : overlay k = some v2) :
    Config.mergedSource file overlay k = some v2 := by
  simp [Config.mergedSource, sourceOverride, h2]

/-- Witness for C5: a key set to "3000" by the file and to "8080" by the
overlay resolves to "8080". -/
theorem config_overlay_wins_check :
    Config.mergedSource (fun k => if k = "server.port" then some "3000" else none)
      (fun k => if k = "server.port" then some "8080" else none) "server.port" =
      some "8080" :=
  config_overlay_wins _ _ "server.port" "3000" "8080" (by decide) (by decide)

/-- Claim C6: `Environment` parsing is case-insensitive and trims
whitespace: any string whose trimmed-lowercased form is one of the
recognized aliases maps to the corresponding canonical variant, and any
other string with non-empty trimmed-lowercased form maps to `Other`
carrying that trimmed-lowercased string. -/
theorem environment_parse_aliases (s : String) :
    (trimStr (lowercaseStr s) = "development" ∨ trimStr (lowercaseStr s) = "dev" →
      Environment.ofStr s = .Development) ∧
    (trimStr (lowercaseStr s) = "production" ∨ trimStr (lowercaseStr s) = "prod" →
      Environment.ofStr s = .Production) ∧
    (trimStr (lowercaseStr s) = "testing" ∨ trimStr (lowercaseStr s) = "test" →
      Environment.ofStr s = .Testing) ∧
    (trimStr (lowercaseStr s) ≠ "" →
      trimStr (lowercaseStr s) ≠ "development" → trimStr (lowercaseStr s) ≠ "dev" →
      trimStr (lowercaseStr s) ≠ "production" → trimStr (lowercaseStr s) ≠ "prod" →
      trimStr (lowercaseStr s) ≠ "testing" → trimStr (lowercaseStr s) ≠ "test" →
      Environment.ofStr s = .Other (trimStr (lowercaseStr s))) := by
  refine ⟨?_, ?_, ?_, ?_⟩
  · rintro (h | h) <;> simp [Environment.ofStr, h]
  · rintro (h | h) <;> simp [Environment.ofStr, h]
  · rintro (h | h) <;> simp [Environment.ofStr, h]
  · intro hne h1 h2 h3 h4 h5 h6
    simp [Environment.ofStr, h1, h2, h3, h4, h5, h6]

/-- Witness for C6: a cased-and-padded alias and an unrecognized name. -/
theorem environment_parse_aliases_check :
    Environment.ofStr " PRODUCTION " = .Production ∧
    Environment.ofStr "staging" = .Other "staging" := by
  have h1 := (environment_parse_aliases " PRODUCTION ").2.1 (Or.inl (by decide))
  have h2 := (environment_parse_aliases "staging").2.2.2 (by decide) (by decide)
    (by decide) (by decide) (by decide) (by decide) (by decide)
  exact ⟨h1, h2.trans (by decide)⟩

/-- Claim C1: when the manifest is readable and the migration tool's calls
succeed, `DatabaseConfig::init` performs exactly the actions of the §4.4
decision table over (recreate, auto_migrate), in the table's order:
(false,false) nothing; (false,true) run only; (true,false) undo all N
steps only; (true,true) undo all N steps and then run. -/
theorem databaseConfig_init_decision_table (cfg : DatabaseConfig) (m : Migrator)
    (ops : MigratorOps) (hu : ∀ n, ops.undoErr n = none) (hr : ops.runErr = none) :
    cfg.init (.ok m) ops =
      (specMigrationTable cfg.recreate cfg.auto_migrate m.count, .ok ()) := by
  cases hrc : cfg.recreate <;> cases ham : cfg.auto_migrate <;>
    simp [DatabaseConfig.init, specMigrationTable, hrc, ham, hu, hr]

/-- Witness for C1 at the (true,true) row over a two-step manifest. -/
theorem databaseConfig_init_decision_table_check :
    DatabaseConfig.init
      ⟨"postgresql://u:pw@h:5432/d", "postgresql", "u", "pw", "h", "d", 5432,
        false, true, true⟩
      (.ok ⟨["0001_users", "0002_sessions"]⟩) ⟨fun _ => none, none⟩ =
      ([MigAction.undo 2, MigAction.run], .ok ()) := by
  have h := databaseConfig_init_decision_table
    ⟨"postgresql://u:pw@h:5432/d", "postgresql", "u", "pw", "h", "d", 5432,
      false, true, true⟩
    ⟨["0001_users", "0002_sessions"]⟩ ⟨fun _ => none, none⟩ (fun _ => rfl) rfl
  exact h.trans rfl

/-- Claim C10: with recreate and auto_migrate both false, `init` still reads
the migration manifest first and fails when the `migrations` directory
cannot be read — no undo or run action happens, and the result is the
propagated manifest error rather than unconditional success. -/
theorem databaseConfig_init_manifest_error (cfg : DatabaseConfig)
    (e : MigrateErrorData) (ops : MigratorOps)
    (h1 : cfg.recreate = false) (h2 : cfg.auto_migrate = false) :
    cfg.init (.error e) ops = ([], .error (.sqlxMigrate e)) := by
  simp [DatabaseConfig.init]

/-- Witness for C10 at a concrete all-false configuration. -/
theorem databaseConfig_init_manifest_error_check :
    DatabaseConfig.init
      ⟨"postgresql://u:pw@h:5432/d", "postgresql", "u", "pw", "h", "d", 5432,
        false, false, false⟩
      (.error ⟨"unable to read migrations directory"⟩) ⟨fun _ => none, none⟩ =
      ([], .error (.sqlxMigrate ⟨"unable to read migrations directory"⟩)) :=
  databaseConfig_init_manifest_error
    ⟨"postgresql://u:pw@h:5432/d", "postgresql", "u", "pw", "h", "d", 5432,
      false, false, false⟩
    ⟨"unable to read migrations directory"⟩ ⟨fun _ => none, none⟩ rfl rfl

/-- Claim C2: if `RUST_LOG` is present and parses, the base filter is its
value verbatim (the configured level/crates are ignored for the base), and
on every construction path that succeeds the per-crate directives
`"<crate>=<level>"` are appended onto the base filter in list order. -/
theorem logger_env_filter_override_verbatim (lg : Logger) (v : String)
    (tn de : String → Option ParseErrorData)
    (hdir : ∀ c ∈ lg.crates, de (c ++ "=" ++ lg.level.display) = none) :
    lg.env_filter (.ok v) tn de =
      .ok ⟨v, lg.crates.map fun c => ⟨c ++ "=" ++ lg.level.display⟩⟩ ∧
    ∀ ev f, lg.env_filter ev tn de = .ok f →
      f.extra = lg.crates.map fun c => (⟨c ++ "=" ++ lg.level.display⟩ : Directive) := by
  constructor
  · have hd := collectDirectives_all_ok lg.level de lg.crates hdir
    simp [Logger.env_filter, Logger.baseFilter, Logger.directives, hd,
      foldl_add_directive_spec]
  · intro ev f hf
    unfold Logger.env_filter at hf
    cases hb : lg.baseFilter ev tn with
    | error e => rw [hb] at hf; exact absurd hf (by simp)
    | ok f0 =>
      rw [hb] at hf
      cases hd : lg.directives de with
      | error e => rw [hd] at hf; exact absurd hf (by simp)
      | ok ds =>
        rw [hd] at hf
        simp only [Except.ok.injEq] at hf
        have hshape := collectDirectives_ok_shape lg.level de lg.crates ds hd
        have hextra := baseFilter_extra_nil lg ev tn f0 hb
        rw [← hf, foldl_add_directive_spec]
        simp [hextra, hshape]

/-- Witness for C2: override value kept verbatim, two crate directives
appended in order. -/
theorem logger_env_filter_override_verbatim_check :
    Logger.env_filter ⟨.Debug, .Json, ["tower_http", "sqlx"]⟩ (.ok "info,hyper=warn")
      (fun _ => none) (fun _ => none) =
      .ok ⟨"info,hyper=warn", [⟨"tower_http=debug"⟩, ⟨"sqlx=debug"⟩]⟩ := by
  have h := logger_env_filter_override_verbatim ⟨.Debug, .Json, ["tower_http", "sqlx"]⟩
    "info,hyper=warn" (fun _ => none) (fun _ => none) (fun c hc => rfl)
  exact h.1.trans rfl

/-- Claim C3: if the `RUST_LOG` override is present but fails for any reason
other than being not present (non-unicode value, or malformed directive
syntax), `setup` returns that error — it never silently falls back to the
configured level/crates filter, and no subscriber is installed (the
subscriber state is unchanged). -/
theorem logger_setup_override_malformed (lg : Logger)
    (tn de : String → Option ParseErrorData) (st : SubscriberState) :
    (∀ e v, lg.setup (.errNotUnicode e v) tn de st = (.error (.envFilter v), st)) ∧
    (∀ e, lg.setup (.errParse e) tn de st = (.error (.fromEnv e), st)) := by
  constructor
  · intro e v
    simp [Logger.setup, Logger.env_filter, Logger.baseFilter]
  · intro e
    simp [Logger.setup, Logger.env_filter, Logger.baseFilter]

/-- Claim C4: when the `RUST_LOG` override is absent, the fallback base
filter is the single directive `"<package-name>=<level>"` if `crates` is
empty, and the empty filter (matching nothing by itself) if `crates` is
non-empty. -/
theorem logger_env_filter_fallback (lg : Logger) (e : FromEnvErrorData)
    (tn de : String → Option ParseErrorData) :
    (lg.crates = [] → tn (cargoPkgName ++ "=" ++ lg.level.display) = none →
      lg.env_filter (.errNotPresent e) tn de =
        .ok ⟨cargoPkgName ++ "=" ++ lg.level.display, []⟩) ∧
    (lg.crates ≠ [] → ∀ f, lg.env_filter (.errNotPresent e) tn de = .ok f →
      f.base = "") := by
  constructor
  · intro hc htn
    simp [Logger.env_filter, Logger.baseFilter, Logger.directives, hc, htn,
      collectDirectives]
  · intro hc f hf
    unfold Logger.env_filter at hf
    cases hb : lg.baseFilter (.errNotPresent e) tn with
    | error e2 => rw [hb] at hf; exact absurd hf (by simp)
    | ok f0 =>
      rw [hb] at hf
      have hbase : f0.base = "" := by
        simp only [Logger.baseFilter] at hb
        rw [if_neg (by simpa [List.isEmpty_iff] using hc)] at hb
        cases htn : tn "" with
        | some e2 => rw [htn] at hb; exact absurd hb (by simp)
        | none =>
          rw [htn] at hb
          simp only [Except.ok.injEq] at hb
          rw [← hb]
      cases hd : lg.directives de with
      | error e2 => rw [hd] at hf; exact absurd hf (by simp)
      | ok ds =>
        rw [hd] at hf
        simp only [Except.ok.injEq] at hf
        rw [← hf, foldl_add_directive_spec]
        exact hbase

/-- Witness for C4: override absent with empty `crates` yields the single
package directive as the base filter. -/
theorem logger_env_filter_fallback_check :
    Logger.env_filter ⟨.Warn, .Pretty, []⟩
      (.errNotPresent ⟨"environment variable not found"⟩)
      (fun _ => none) (fun _ => none) = .ok ⟨"betterauth=warn", []⟩ := by
  have h := (logger_env_filter_fallback ⟨.Warn, .Pretty, []⟩
    ⟨"environment variable not found"⟩ (fun _ => none) (fun _ => none)).1 rfl rfl
  exact h.trans rfl

/-- Claim C7: after a first successful `setup` has installed the
process-wide subscriber, any further `setup` call leaves the state (and so
the first subscriber) unchanged, and a second call whose filter
construction succeeds fails with the distinct already-initialized
(`TryInit`) error instead of succeeding or replacing the subscriber. -/
theorem logger_setup_at_most_once (lg : Logger) (ev : FromEnvResult)
    (tn de : String → Option ParseErrorData) (st : SubscriberState)
    (h : lg.setup ev tn de SubscriberState.fresh = (.ok (), st)) :
    st.global.isSome = true ∧
    (∀ lg2 ev2 tn2 de2, (Logger.setup lg2 ev2 tn2 de2 st).2 = st) ∧
    (∀ lg2 ev2 tn2 de2 f, Logger.env_filter lg2 ev2 tn2 de2 = .ok f →
      (Logger.setup lg2 ev2 tn2 de2 st).1 = .error (.tryInit .mk)) := by
  have hsome : st.global.isSome = true := by
    unfold Logger.setup at h
    cases he : lg.env_filter ev tn de with
    | error e => rw [he] at h; exact absurd h (by simp)
    | ok f =>
      rw [he] at h
      cases hfmt : lg.format <;> rw [hfmt] at h <;>
        · simp only [tryInitSub, SubscriberState.fresh, Prod.mk.injEq] at h
          rw [← h.2]
          rfl
  obtain ⟨sub, hg⟩ : ∃ sub, st.global = some sub := by
    cases hg2 : st.global with
    | none => rw [hg2] at hsome; exact absurd hsome (by simp)
    | some sub => exact ⟨sub, rfl⟩
  refine ⟨hsome, ?_, ?_⟩
  · intro lg2 ev2 tn2 de2
    unfold Logger.setup
    cases he : Logger.env_filter lg2 ev2 tn2 de2 with
    | error e => rfl
    | ok f => cases lg2.format <;> simp [tryInitSub, hg]
  · intro lg2 ev2 tn2 de2 f he
    unfold Logger.setup
    rw [he]
    cases lg2.format <;> simp [tryInitSub, hg]

/-- Witness for C7: a concrete first successful call, then a second call
that fails with the already-initialized error. -/
theorem logger_setup_at_most_once_check :
    (Logger.setup ⟨.Debug, .Compact, []⟩
      (.errNotPresent ⟨"environment variable not found"⟩)
      (fun _ => none) (fun _ => none)
      ⟨some ⟨⟨"betterauth=info", []⟩, .Pretty⟩⟩).1 = .error (.tryInit .mk) := by
  have h := logger_setup_at_most_once ⟨.Info, .Pretty, []⟩
    (.errNotPresent ⟨"environment variable not found"⟩)
    (fun _ => none) (fun _ => none)
    ⟨some ⟨⟨"betterauth=info", []⟩, .Pretty⟩⟩ rfl
  exact h.2.2 ⟨.Debug, .Compact, []⟩
    (.errNotPresent ⟨"environment variable not found"⟩)
    (fun _ => none) (fun _ => none) ⟨"betterauth=debug", []⟩ rfl
